import Mathlib

/-!
Shallow embedding of the AOSMITH inventory/release web application, restricted
to the parts the verified properties are about:

* release creation (`src/app/api/releases/route.ts`, `POST`): validation,
  availability check, totalUnits computation, release/ticket/batch numbering,
  inventory decrement with pallet borrow;
* release update and deletion (`src/app/api/releases/[releaseId]/route.ts`,
  `PATCH` and `DELETE`): tracking-number driven status transition, restricted
  status set, inventory restoration on deletion;
* production creation and the parts listing
  (`src/app/api/shipping-locations/route.ts`): inventory increment and derived
  stock status;
* the cron invoice endpoints' shared-secret guard (`src/unnamed/part_005`).

JavaScript numbers appearing in these code paths always hold integers, so they
are embedded as `Int`; absent or `null` JSON fields are embedded as `Option`.
-/

namespace AOSmith

/-- JavaScript `v || d` for a numeric field: `undefined`, `null` and `0` are
falsy and yield the default `d`.  `none` covers both `undefined` and `null`. -/
def jsOrNum (v : Option Int) (d : Int) : Int :=
  match v with
  | none => d
  | some x => if x = 0 then d else x

/-- JavaScript truthiness of a nullable string (a DB column such as
`trackingNumber`, or an env var): `null`/absent and the empty string are falsy. -/
def jsTruthyStr : Option String → Bool
  | none => false
  | some s => s != ""

/-- JavaScript `String.prototype.padStart(n, c)`: prepend copies of `c` until
the length is at least `n`; a string already at least `n` long is unchanged. -/
def padStart (s : String) (n : Nat) (c : Char) : String :=
  if n ≤ s.length then s else String.mk (List.replicate (n - s.length) c) ++ s

/-- JavaScript `String.prototype.slice(-n)`: the last `n` characters, or the
whole string when it is shorter than `n`. -/
def sliceNeg (s : String) (n : Nat) : String :=
  String.mk (s.data.drop (s.data.length - n))

/-- The `Part` row fields used by the embedded code paths
(prisma model `Part`). -/
structure Part where
  partNumber : String
  unitsPerBox : Int
  boxesPerPallet : Int
  currentPallets : Int
  currentBoxes : Int
  annualOrder : Int
deriving Repr, DecidableEq

/-- The `Release` row fields used by the embedded code paths
(prisma model `Release`).  `id` stands for the opaque DB id. -/
structure ReleaseRow where
  id : Nat
  releaseNumber : String
  ticketNumber : String
  batchNumber : String
  customerPONumber : String
  pallets : Int
  boxes : Int
  totalUnits : Int
  status : String
  trackingNumber : Option String := none
  shipDate : Option String := none
deriving Repr, DecidableEq

/-- The slice of database state the release endpoints read and write: one part
and the list of all releases (`prisma.release.count()` is its length). -/
structure DB where
  part : Part
  releases : List ReleaseRow
deriving Repr, DecidableEq

/-- Body of `POST /api/releases` (fields the embedded logic reads; `partId`
and `shippingLocationId` are represented by `DB.part` having been found). -/
structure CreateReleaseReq where
  customerPONumber : String
  pallets : Option Int := none
  boxes : Option Int := none
  batchNumber : Option String := none
deriving Repr, DecidableEq

/-- Availability check of `POST /api/releases`
(`src/app/api/releases/route.ts:73-74`): insufficient when
`currentPallets < requestedPallets`, or `currentPallets === requestedPallets`
and `currentBoxes < requestedBoxes`. -/
def insufficientFor (part : Part) (rp rb : Int) : Bool :=
  decide (part.currentPallets < rp) ||
    (decide (part.currentPallets = rp) && decide (part.currentBoxes < rb))

/-- Inventory decrement of `POST /api/releases`
(`src/app/api/releases/route.ts:129-143`): subtract, and when boxes go
negative borrow one pallet, converting it into `boxesPerPallet` boxes. -/
def applyReleaseDecrement (part : Part) (rp rb : Int) : Part :=
  let newPallets := part.currentPallets - rp
  let newBoxes := part.currentBoxes - rb
  if newBoxes < 0 then
    { part with currentPallets := newPallets - 1,
                currentBoxes := newBoxes + part.boxesPerPallet }
  else
    { part with currentPallets := newPallets, currentBoxes := newBoxes }

/-- Outcome of `POST /api/releases` as seen by the caller. -/
inductive PostResult where
  | created (r : ReleaseRow)
  | validationError
  | insufficientInventory
deriving Repr, DecidableEq

/-- Defaulting of the requested pallet count
(`src/app/api/releases/route.ts:70`): `const requestedPallets = pallets || 5`. -/
def requestedPallets (req : CreateReleaseReq) : Int :=
  jsOrNum req.pallets 5

/-- Defaulting of the requested box count
(`src/app/api/releases/route.ts:71`): `const requestedBoxes = boxes || 0`. -/
def requestedBoxes (req : CreateReleaseReq) : Int :=
  jsOrNum req.boxes 0

/-- The release row persisted by `POST /api/releases`
(`src/app/api/releases/route.ts:82-120`): totalUnits computation, release and
ticket number generation from the global release count, batch number
defaulting from the part number's last 4 characters. -/
def releaseRowFor (db : DB) (dateStr : String) (req : CreateReleaseReq) : ReleaseRow :=
  let part := db.part
  let rp := requestedPallets req
  let rb := requestedBoxes req
  let count := db.releases.length
  { id := count
    releaseNumber := "REL-" ++ dateStr ++ "-" ++ padStart (toString (count + 1)) 4 '0'
    ticketNumber := "TKT-" ++ padStart (toString (count + 1)) 5 '0'
    batchNumber :=
      match req.batchNumber with
      | some b => if b = "" then sliceNeg part.partNumber 4 else b
      | none => sliceNeg part.partNumber 4
    customerPONumber := req.customerPONumber
    pallets := rp
    boxes := rb
    totalUnits := (rp * part.boxesPerPallet + rb) * part.unitsPerBox
    status := "COMPLETED" }

/-- The `POST /api/releases` handler (`src/app/api/releases/route.ts:50-143`),
from the required-field validation through the inventory update, returning the
response outcome together with the resulting database state. -/
def releasePOST (db : DB) (dateStr : String) (req : CreateReleaseReq) :
    PostResult × DB :=
  if req.customerPONumber = "" then (.validationError, db)
  else if insufficientFor db.part (requestedPallets req) (requestedBoxes req) then
    (.insufficientInventory, db)
  else
    let row := releaseRowFor db dateStr req
    (.created row,
     { part := applyReleaseDecrement db.part (requestedPallets req) (requestedBoxes req)
       releases := db.releases ++ [row] })

/-- The `POST /api/shipping-locations` production handler
(`src/app/api/shipping-locations/route.ts:65-120`, second route segment):
`pallets === undefined` is a validation error (`none` here); otherwise add
`pallets || 0` pallets and `boxes || 0` boxes with no normalization, and
record `totalUnits`.  Returns the production's `totalUnits` and the updated
part. -/
def productionPOST (part : Part) (pallets : Option Int) (boxes : Option Int) :
    Option (Int × Part) :=
  match pallets with
  | none => none
  | some p =>
    let addedPallets := jsOrNum (some p) 0
    let addedBoxes := jsOrNum boxes 0
    let totalBoxes := addedPallets * part.boxesPerPallet + addedBoxes
    let totalUnits := totalBoxes * part.unitsPerBox
    some (totalUnits,
      { part with currentPallets := part.currentPallets + addedPallets,
                  currentBoxes := part.currentBoxes + addedBoxes })

/-- Body of `PATCH /api/releases/[releaseId]`.  The outer `Option` is
`undefined` (field absent from the JSON body); the inner `Option` on
`trackingNumber` and `shipDate` is JSON `null`. -/
structure PatchBody where
  trackingNumber : Option (Option String) := none
  shipDate : Option (Option String) := none
  status : Option String := none
deriving Repr, DecidableEq

/-- JavaScript truthiness of a possibly-absent, possibly-null string body
field (`body.trackingNumber && ...`). -/
def jsTruthyBody : Option (Option String) → Bool
  | some (some s) => s != ""
  | _ => false

/-- The field-update logic of `PATCH /api/releases/[releaseId]`
(`src/app/api/releases/[releaseId]/route.ts:94-115`): copy `trackingNumber`
and `shipDate` when supplied, store `status` only when it is `COMPLETED` or
`SHIPPED`, then force `status := SHIPPED` when a truthy tracking number is
supplied and the release had none. -/
def patchRelease (existing : ReleaseRow) (body : PatchBody) : ReleaseRow :=
  let r1 :=
    match body.trackingNumber with
    | none => existing
    | some t => { existing with trackingNumber := t }
  let r2 :=
    match body.shipDate with
    | none => r1
    | some d => { r1 with shipDate := d }
  let r3 :=
    match body.status with
    | none => r2
    | some s => if s = "COMPLETED" || s = "SHIPPED" then { r2 with status := s } else r2
  if jsTruthyBody body.trackingNumber && !jsTruthyStr existing.trackingNumber then
    { r3 with status := "SHIPPED" }
  else r3

/-- Outcome of `DELETE /api/releases/[releaseId]`. -/
inductive DeleteResult where
  | notFound
  | rejectedShipped
  | deleted
deriving Repr, DecidableEq

/-- The `DELETE /api/releases/[releaseId]` handler
(`src/app/api/releases/[releaseId]/route.ts:156-186`): reject when the
release is `SHIPPED`; otherwise increment the part's inventory by the
release's pallets and boxes and remove the record. -/
def releaseDELETE (db : DB) (rid : Nat) : DeleteResult × DB :=
  match db.releases.find? (fun r => r.id == rid) with
  | none => (.notFound, db)
  | some r =>
    if r.status = "SHIPPED" then (.rejectedShipped, db)
    else
      (.deleted,
       { part := { db.part with
                     currentPallets := db.part.currentPallets + r.pallets,
                     currentBoxes := db.part.currentBoxes + r.boxes }
         releases := db.releases.filter (fun x => x.id != rid) })

/-- Derived stock status of the parts listing. -/
inductive StockStatus where
  | good
  | low
  | critical
deriving Repr, DecidableEq

/-- On-hand boxes of a part (`src/app/api/shipping-locations/route.ts:277`). -/
def totalBoxesOnHand (p : Part) : Int :=
  p.currentPallets * p.boxesPerPallet + p.currentBoxes

/-- On-hand units of a part (`src/app/api/shipping-locations/route.ts:278`). -/
def totalUnitsOnHand (p : Part) : Int :=
  totalBoxesOnHand p * p.unitsPerBox

/-- Percentage of the annual order currently on hand
(`src/app/api/shipping-locations/route.ts:279`). -/
def percentOfAnnual (p : Part) : ℚ :=
  (totalUnitsOnHand p : ℚ) / (p.annualOrder : ℚ) * 100

/-- Stock-status classification of the parts listing
(`src/app/api/shipping-locations/route.ts:281-288`). -/
def stockStatus (p : Part) : StockStatus :=
  if 30 < percentOfAnnual p then .good
  else if 15 < percentOfAnnual p then .low
  else .critical

/-- The shared-secret guard of the invoice cron endpoints
(`src/unnamed/part_005`, both `GET` and `POST` use the identical check
`if (cronSecret && authHeader !== Bearer cronSecret)`): the request is
rejected as Unauthorized exactly when this returns `true`.  `cronSecret` is
the `CRON_SECRET` env var (`none` when unset); `authHeader` is the
`authorization` header (`none` when absent). -/
def cronRejected (cronSecret : Option String) (authHeader : Option String) : Bool :=
  match cronSecret with
  | none => false
  | some s => if s = "" then false else authHeader != some ("Bearer " ++ s)

/-! Concrete instances used by the witnesses: the part and scenarios of
spec §8 (`boxesPerPallet=51, unitsPerBox=130, currentPallets=50,
currentBoxes=10`). -/

/-- The spec §8 scenario part. -/
def specPart : Part :=
  { partNumber := "100307705", unitsPerBox := 130, boxesPerPallet := 51,
    currentPallets := 50, currentBoxes := 10, annualOrder := 1000000 }

/-- Database holding the scenario part and no prior releases. -/
def specDB : DB := { part := specPart, releases := [] }

/-- Scenario request `pallets=5, boxes=0`. -/
def reqOK : CreateReleaseReq :=
  { customerPONumber := "PO-1001", pallets := some 5, boxes := some 0 }

/-- Scenario request `pallets=50, boxes=20`. -/
def reqTooMany : CreateReleaseReq :=
  { customerPONumber := "PO-1002", pallets := some 50, boxes := some 20 }

/-- C1: for every create-release request (with the required customer PO
present), creation fails with InsufficientInventory exactly when
`currentPallets < requestedPallets`, or `currentPallets = requestedPallets`
and `currentBoxes < requestedBoxes`; and on that rejection the database —
the part's inventory and the release list — is unchanged. -/
theorem release_insufficient_iff (db : DB) (dateStr : String) (req : CreateReleaseReq)
    (hpo : ¬ req.customerPONumber = "") :
    ((releasePOST db dateStr req).1 = .insufficientInventory ↔
      db.part.currentPallets < requestedPallets req ∨
        (db.part.currentPallets = requestedPallets req ∧
          db.part.currentBoxes < requestedBoxes req)) ∧
    ((releasePOST db dateStr req).1 = .insufficientInventory →
      (releasePOST db dateStr req).2 = db) := by
  unfold releasePOST
  rw [if_neg hpo]
  by_cases h : insufficientFor db.part (requestedPallets req) (requestedBoxes req) = true
  · rw [if_pos h]
    simp only [insufficientFor, Bool.or_eq_true, Bool.and_eq_true, decide_eq_true_eq] at h
    exact ⟨⟨fun _ => h, fun _ => rfl⟩, fun _ => rfl⟩
  · rw [if_neg h]
    simp only [insufficientFor, Bool.or_eq_true, Bool.and_eq_true, decide_eq_true_eq] at h
    refine ⟨⟨fun hc => ?_, fun hcond => absurd hcond h⟩, fun hc => ?_⟩ <;> simp at hc

/-- Witness for C1: the spec scenario `pallets=50, boxes=20` against inventory
`(50, 10)` is rejected and the database is unchanged. -/
theorem release_insufficient_iff_witness :
    (releasePOST specDB "20260101" reqTooMany).1 = .insufficientInventory ∧
    (releasePOST specDB "20260101" reqTooMany).2 = specDB := by
  have h := release_insufficient_iff specDB "20260101" reqTooMany (by decide)
  have h1 := h.1.mpr (by decide)
  exact ⟨h1, h.2 h1⟩

/-- C2: for every release creation that passes the availability check, the
inventory decrement borrows one pallet exactly when
`currentBoxes - requestedBoxes < 0`, in which case the new pallets are
`currentPallets - requestedPallets - 1` and the new boxes
`currentBoxes - requestedBoxes + boxesPerPallet`; otherwise the plain
subtraction with no borrow. -/
theorem release_decrement_borrow (db : DB) (dateStr : String) (req : CreateReleaseReq)
    (hpo : ¬ req.customerPONumber = "")
    (hav : insufficientFor db.part (requestedPallets req) (requestedBoxes req) = false) :
    (db.part.currentBoxes - requestedBoxes req < 0 →
      (releasePOST db dateStr req).2.part.currentPallets
          = db.part.currentPallets - requestedPallets req - 1 ∧
      (releasePOST db dateStr req).2.part.currentBoxes
          = db.part.currentBoxes - requestedBoxes req + db.part.boxesPerPallet) ∧
    (0 ≤ db.part.currentBoxes - requestedBoxes req →
      (releasePOST db dateStr req).2.part.currentPallets
          = db.part.currentPallets - requestedPallets req ∧
      (releasePOST db dateStr req).2.part.currentBoxes
          = db.part.currentBoxes - requestedBoxes req) := by
  unfold releasePOST
  rw [if_neg hpo, if_neg (by simp [hav])]
  unfold applyReleaseDecrement
  dsimp only
  constructor
  · intro hb
    rw [if_pos hb]
    exact ⟨rfl, rfl⟩
  · intro hb
    rw [if_neg (not_lt.mpr hb)]
    exact ⟨rfl, rfl⟩

/-- Witness for C2: the spec scenario `pallets=5, boxes=0` against inventory
`(50, 10)` leaves `(45, 10)` with no borrow. -/
theorem release_decrement_borrow_witness :
    (releasePOST specDB "20260101" reqOK).2.part.currentPallets = 45 ∧
    (releasePOST specDB "20260101" reqOK).2.part.currentBoxes = 10 := by
  have h := (release_decrement_borrow specDB "20260101" reqOK (by decide) (by decide)).2
    (by decide)
  exact ⟨by rw [h.1]; decide, by rw [h.2]; decide⟩

/-- The row created by the spec §8 scenario release. -/
def rowOK : ReleaseRow := releaseRowFor specDB "20260101" reqOK

/-- C4: for every created release the persisted `totalUnits` equals
`(pallets * boxesPerPallet + boxes) * unitsPerBox` exactly, over the integers,
with the persisted pallets and boxes being the defaulted request values; the
same formula holds for every accepted production. -/
theorem release_totalUnits_exact (db : DB) (dateStr : String) (req : CreateReleaseReq)
    (r : ReleaseRow) (h : (releasePOST db dateStr req).1 = .created r) :
    r.totalUnits = (r.pallets * db.part.boxesPerPallet + r.boxes) * db.part.unitsPerBox ∧
    r.pallets = requestedPallets req ∧ r.boxes = requestedBoxes req ∧
    ∀ (part : Part) (p : Int) (b : Option Int) (tu : Int) (part2 : Part),
      productionPOST part (some p) b = some (tu, part2) →
      tu = (p * part.boxesPerPallet + jsOrNum b 0) * part.unitsPerBox := by
  unfold releasePOST at h
  split at h
  · exact absurd h (by simp)
  · split at h
    · exact absurd h (by simp)
    · simp only [PostResult.created.injEq] at h
      subst h
      refine ⟨rfl, rfl, rfl, ?_⟩
      intro part p b tu part2 hp
      unfold productionPOST at hp
      simp only [Option.some.injEq, Prod.mk.injEq] at hp
      rw [← hp.1]
      have hj : jsOrNum (some p) 0 = p := by
        by_cases hp : p = 0
        · simp [jsOrNum, hp]
        · simp [jsOrNum, hp]
      rw [hj]

/-- Witness for C4: the spec scenario (`boxesPerPallet=51, unitsPerBox=130`,
release of 5 pallets and 0 boxes) yields `totalUnits = 33150`. -/
theorem release_totalUnits_exact_witness :
    rowOK.totalUnits
        = (rowOK.pallets * specDB.part.boxesPerPallet + rowOK.boxes) * specDB.part.unitsPerBox ∧
    rowOK.totalUnits = 33150 := by
  have h := release_totalUnits_exact specDB "20260101" reqOK rowOK (by decide)
  exact ⟨h.1, by decide⟩

/-- C7: for every created release, with `n` existing release rows the
generated release number is `REL-<dateStr>-<n+1 padded to 4 digits>`, the
ticket number is `TKT-<n+1 padded to 5 digits>`, and when no batch number is
supplied it is the last 4 characters of the part number. -/
theorem release_numbering (db : DB) (dateStr : String) (req : CreateReleaseReq)
    (r : ReleaseRow) (h : (releasePOST db dateStr req).1 = .created r) :
    r.releaseNumber
        = "REL-" ++ dateStr ++ "-" ++ padStart (toString (db.releases.length + 1)) 4 '0' ∧
    r.ticketNumber = "TKT-" ++ padStart (toString (db.releases.length + 1)) 5 '0' ∧
    (req.batchNumber = none → r.batchNumber = sliceNeg db.part.partNumber 4) := by
  unfold releasePOST at h
  split at h
  · exact absurd h (by simp)
  · split at h
    · exact absurd h (by simp)
    · simp only [PostResult.created.injEq] at h
      subst h
      refine ⟨rfl, rfl, fun hb => ?_⟩
      unfold releaseRowFor
      rw [hb]

/-- Rows standing in for 3 prior releases. -/
def dummyRow (n : Nat) : ReleaseRow :=
  { id := n, releaseNumber := "R", ticketNumber := "T", batchNumber := "B",
    customerPONumber := "P", pallets := 1, boxes := 0, totalUnits := 0,
    status := "COMPLETED" }

/-- Database with 3 prior releases. -/
def db3 : DB := { part := specPart, releases := [dummyRow 0, dummyRow 1, dummyRow 2] }

/-- Request without a batch number, used for the numbering witness. -/
def req7 : CreateReleaseReq :=
  { customerPONumber := "PO-1004", pallets := some 5, boxes := some 0 }

/-- The row created by `req7` against `db3`. -/
def row7 : ReleaseRow := releaseRowFor db3 "20260101" req7

/-- Witness for C7: with 3 prior releases the 4th gets suffix `0004`, the
ticket number gets `00004`, and the batch number defaults to the last 4
characters of part number `100307705`, i.e. `7705`. -/
theorem release_numbering_witness :
    row7.releaseNumber = "REL-20260101-0004" ∧ row7.ticketNumber = "TKT-00004" ∧
    row7.batchNumber = "7705" := by
  have h := release_numbering db3 "20260101" req7 row7 (by decide)
  exact ⟨by rw [h.1]; decide, by rw [h.2.1]; decide, by rw [h.2.2 rfl]; decide⟩

/-- Congruence helper: the release POST handler reads the request only
through the defaulted quantities, the customer PO and the batch number. -/
theorem releasePOST_congr (db : DB) (dateStr : String) (req req2 : CreateReleaseReq)
    (h1 : requestedPallets req = requestedPallets req2)
    (h2 : requestedBoxes req = requestedBoxes req2)
    (h3 : req.customerPONumber = req2.customerPONumber)
    (h4 : req.batchNumber = req2.batchNumber) :
    releasePOST db dateStr req = releasePOST db dateStr req2 := by
  unfold releasePOST releaseRowFor
  rw [h1, h2, h3, h4]

/-- C10: a request whose pallets field is absent/null or `0` behaves exactly
as a request for 5 pallets — the availability check, totalUnits, persisted
row and decrement all use the defaulted value — and a boxes field that is
absent/null or `0` behaves exactly as `0` boxes. -/
theorem release_defaults (db : DB) (dateStr : String) (req : CreateReleaseReq) :
    ((req.pallets = none ∨ req.pallets = some 0) →
      releasePOST db dateStr req = releasePOST db dateStr { req with pallets := some 5 }) ∧
    ((req.boxes = none ∨ req.boxes = some 0) →
      releasePOST db dateStr req = releasePOST db dateStr { req with boxes := some 0 }) ∧
    requestedPallets { req with pallets := none } = 5 ∧
    requestedPallets { req with pallets := some 0 } = 5 ∧
    requestedBoxes { req with boxes := none } = 0 ∧
    requestedBoxes { req with boxes := some 0 } = 0 := by
  have h5 : jsOrNum (some 5) 5 = 5 := by norm_num [jsOrNum]
  have h0 : jsOrNum (some 0) 0 = 0 := by norm_num [jsOrNum]
  refine ⟨?_, ?_, by simp [requestedPallets, jsOrNum], by norm_num [requestedPallets, jsOrNum],
    by simp [requestedBoxes, jsOrNum], by norm_num [requestedBoxes, jsOrNum]⟩
  · rintro (hp | hp) <;>
      exact releasePOST_congr db dateStr _ _
        (by simp [requestedPallets, jsOrNum, hp]) rfl rfl rfl
  · rintro (hb | hb) <;>
      exact releasePOST_congr db dateStr _ _
        rfl (by simp [requestedBoxes, jsOrNum, hb]) rfl rfl

/-- Request asking for 0 pallets, used for the defaulting witness. -/
def reqZeroPallets : CreateReleaseReq :=
  { customerPONumber := "PO-1005", pallets := some 0, boxes := some 0 }

/-- Witness for C10: a caller asking for 0 pallets gets the same outcome as
one asking for 5, and the created row releases 5 pallets, decrementing the
scenario inventory from 50 to 45 pallets. -/
theorem release_defaults_witness :
    releasePOST specDB "20260101" reqZeroPallets
        = releasePOST specDB "20260101" { reqZeroPallets with pallets := some 5 } ∧
    (releasePOST specDB "20260101" reqZeroPallets).1
        = .created (releaseRowFor specDB "20260101" reqZeroPallets) ∧
    (releaseRowFor specDB "20260101" reqZeroPallets).pallets = 5 ∧
    (releasePOST specDB "20260101" reqZeroPallets).2.part.currentPallets = 45 := by
  have h := (release_defaults specDB "20260101" reqZeroPallets).1 (Or.inr rfl)
  exact ⟨h, by decide, by decide, by decide⟩

/-- The part after applying the production `pallets=0, boxes=60` to the
scenario part (production performs no box normalization). -/
def specPartAfterProd : Part :=
  ((productionPOST specPart (some 0) (some 60)).getD (0, specPart)).2

/-- C3 counterexample: starting from in-range inventory (`currentBoxes = 10`,
`boxesPerPallet = 51`), the production mutation `pallets=0, boxes=60` is
accepted and leaves `currentBoxes = 70 ≥ boxesPerPallet`, so `currentBoxes`
does not stay in `[0, boxesPerPallet)` after every inventory mutation. -/
theorem production_breaks_box_range :
    0 ≤ specPart.currentBoxes ∧ specPart.currentBoxes < specPart.boxesPerPallet ∧
    productionPOST specPart (some 0) (some 60) = some (7800, specPartAfterProd) ∧
    specPartAfterProd.currentBoxes = 70 ∧
    ¬ specPartAfterProd.currentBoxes < specPartAfterProd.boxesPerPallet := by
  decide

/-- C3 (amended): the release decrement's borrow logic keeps `currentBoxes`
in `[0, boxesPerPallet)` whenever it starts in that interval and the
requested boxes are at most `currentBoxes + boxesPerPallet`; the production
mutation performs no normalization and can leave `currentBoxes` at or above
`boxesPerPallet` (see the counterexample). -/
theorem release_keeps_box_range (part : Part) (rp rb : Int)
    (_h0 : 0 ≤ part.currentBoxes) (h1 : part.currentBoxes < part.boxesPerPallet)
    (h2 : 0 ≤ rb) (h3 : rb ≤ part.currentBoxes + part.boxesPerPallet) :
    0 ≤ (applyReleaseDecrement part rp rb).currentBoxes ∧
    (applyReleaseDecrement part rp rb).currentBoxes < part.boxesPerPallet := by
  unfold applyReleaseDecrement
  dsimp only
  by_cases hb : part.currentBoxes - rb < 0
  · rw [if_pos hb]
    dsimp only
    omega
  · rw [if_neg hb]
    dsimp only
    omega

/-- Witness for C3 (amended): releasing 5 pallets and 20 boxes from the
scenario inventory `(50, 10)` borrows a pallet and leaves 41 boxes, still in
`[0, 51)`. -/
theorem release_keeps_box_range_witness :
    0 ≤ (applyReleaseDecrement specPart 5 20).currentBoxes ∧
    (applyReleaseDecrement specPart 5 20).currentBoxes < specPart.boxesPerPallet := by
  exact release_keeps_box_range specPart 5 20 (by decide) (by decide) (by decide) (by decide)

/-- C5: deleting a release that is not SHIPPED adds back exactly its pallets
and boxes (no borrow-normalization), keeps every other release and removes
the deleted record; deleting a SHIPPED release is rejected and leaves the
database — release list and inventory — unchanged. -/
theorem delete_release_spec (db : DB) (rid : Nat) (r : ReleaseRow)
    (hfind : db.releases.find? (fun x => x.id == rid) = some r) :
    (¬ r.status = "SHIPPED" →
      (releaseDELETE db rid).1 = .deleted ∧
      (releaseDELETE db rid).2.part.currentPallets = db.part.currentPallets + r.pallets ∧
      (releaseDELETE db rid).2.part.currentBoxes = db.part.currentBoxes + r.boxes ∧
      (∀ x ∈ (releaseDELETE db rid).2.releases, x.id ≠ rid) ∧
      (∀ x ∈ db.releases, x.id ≠ rid → x ∈ (releaseDELETE db rid).2.releases)) ∧
    (r.status = "SHIPPED" →
      (releaseDELETE db rid).1 = .rejectedShipped ∧ (releaseDELETE db rid).2 = db) := by
  unfold releaseDELETE
  rw [hfind]
  dsimp only
  constructor
  · intro hs
    rw [if_neg hs]
    refine ⟨rfl, rfl, rfl, ?_, ?_⟩
    · intro x hx
      simp only [List.mem_filter, bne_iff_ne, ne_eq] at hx
      exact hx.2
    · intro x hx hne
      simp only [List.mem_filter, bne_iff_ne, ne_eq]
      exact ⟨hx, hne⟩
  · intro hs
    rw [if_pos hs]
    exact ⟨rfl, rfl⟩

/-- A non-shipped release sitting in the database, to be deleted. -/
def rowDel : ReleaseRow :=
  { id := 0, releaseNumber := "REL-20260101-0001", ticketNumber := "TKT-00001",
    batchNumber := "7705", customerPONumber := "PO-1", pallets := 5, boxes := 0,
    totalUnits := 33150, status := "COMPLETED" }

/-- Database holding `rowDel` against the scenario part. -/
def dbDel : DB := { part := specPart, releases := [rowDel] }

/-- Witness for C5: deleting the COMPLETED release restores its 5 pallets and
0 boxes, giving inventory `(55, 10)`. -/
theorem delete_release_spec_witness :
    (releaseDELETE dbDel 0).1 = .deleted ∧
    (releaseDELETE dbDel 0).2.part.currentPallets = 55 ∧
    (releaseDELETE dbDel 0).2.part.currentBoxes = 10 := by
  have h := (delete_release_spec dbDel 0 rowDel (by decide)).1 (by decide)
  exact ⟨h.1, by rw [h.2.1]; decide, by rw [h.2.2.1]; decide⟩

/-- Status actually stored by the PATCH handler, isolated from the other
field updates. -/
theorem patchRelease_status_eq (e : ReleaseRow) (b : PatchBody) :
    (patchRelease e b).status =
      if jsTruthyBody b.trackingNumber && !jsTruthyStr e.trackingNumber then "SHIPPED"
      else
        match b.status with
        | some s => if s = "COMPLETED" || s = "SHIPPED" then s else e.status
        | none => e.status := by
  unfold patchRelease
  by_cases hc : (jsTruthyBody b.trackingNumber && !jsTruthyStr e.trackingNumber) = true
  · rw [if_pos hc, if_pos hc]
  · rw [if_neg hc, if_neg hc]
    cases htn : b.trackingNumber <;> cases hsd : b.shipDate <;> cases hst : b.status <;>
      dsimp only <;>
      first
        | rfl
        | (rename_i s
           by_cases hv : (s = "COMPLETED" || s = "SHIPPED") = true
           · rw [if_pos hv, if_pos hv]
           · rw [if_neg hv, if_neg hv])

/-- C6: on a PATCH update, a truthy trackingNumber on a release with no
existing tracking number forces status SHIPPED; when a tracking number
already exists the status can become SHIPPED only if it already was or the
body asked for it; and the stored status is always either unchanged,
`COMPLETED` or `SHIPPED` — any other supplied value is not stored. -/
theorem patch_status_rules (e : ReleaseRow) (b : PatchBody) :
    (jsTruthyBody b.trackingNumber = true → jsTruthyStr e.trackingNumber = false →
      (patchRelease e b).status = "SHIPPED") ∧
    (jsTruthyStr e.trackingNumber = true → (patchRelease e b).status = "SHIPPED" →
      e.status = "SHIPPED" ∨ b.status = some "SHIPPED") ∧
    ((patchRelease e b).status = e.status ∨ (patchRelease e b).status = "COMPLETED" ∨
      (patchRelease e b).status = "SHIPPED") := by
  rw [patchRelease_status_eq]
  refine ⟨fun h1 h2 => ?_, fun h1 h2 => ?_, ?_⟩
  · rw [if_pos (by rw [h1, h2]; rfl)]
  · rw [if_neg (by rw [h1]; simp)] at h2
    cases hst : b.status with
    | none => rw [hst] at h2; exact Or.inl h2
    | some s =>
      rw [hst] at h2
      dsimp only at h2
      by_cases hv : (decide (s = "COMPLETED") || decide (s = "SHIPPED")) = true
      · rw [if_pos hv] at h2
        exact Or.inr (by rw [h2])
      · rw [if_neg hv] at h2
        exact Or.inl h2
  · by_cases hc : (jsTruthyBody b.trackingNumber && !jsTruthyStr e.trackingNumber) = true
    · rw [if_pos hc]
      exact Or.inr (Or.inr rfl)
    · rw [if_neg hc]
      cases hst : b.status with
      | none => exact Or.inl rfl
      | some s =>
        dsimp only
        by_cases hv : (decide (s = "COMPLETED") || decide (s = "SHIPPED")) = true
        · rw [if_pos hv]
          rcases Bool.or_eq_true_iff.mp hv with hC | hS
          · exact Or.inr (Or.inl (of_decide_eq_true hC))
          · exact Or.inr (Or.inr (of_decide_eq_true hS))
        · rw [if_neg hv]
          exact Or.inl rfl

/-- A COMPLETED release with no tracking number yet. -/
def relNoTrack : ReleaseRow :=
  { id := 1, releaseNumber := "REL-20260101-0002", ticketNumber := "TKT-00002",
    batchNumber := "7705", customerPONumber := "PO-2", pallets := 5, boxes := 0,
    totalUnits := 33150, status := "COMPLETED" }

/-- PATCH body supplying only a tracking number. -/
def bodyTrack : PatchBody := { trackingNumber := some (some "1Z999AA10123456784") }

/-- Witness for C6: supplying the first tracking number to a COMPLETED
release with none stored transitions its status to SHIPPED. -/
theorem patch_status_rules_witness :
    (patchRelease relNoTrack bodyTrack).status = "SHIPPED" := by
  exact (patch_status_rules relNoTrack bodyTrack).1 (by decide) (by decide)

/-- Comparison of the on-hand percentage with an integer threshold, reduced
to integer arithmetic (for a positive annual order). -/
theorem percentOfAnnual_lt_iff (p : Part) (h : 0 < p.annualOrder) (c : ℤ) :
    ((c : ℚ) < percentOfAnnual p ↔ c * p.annualOrder < totalUnitsOnHand p * 100) := by
  have hq : (0 : ℚ) < (p.annualOrder : ℚ) := by exact_mod_cast h
  unfold percentOfAnnual
  rw [div_mul_eq_mul_div, lt_div_iff₀ hq]
  exact_mod_cast Iff.rfl

/-- C8: for every part with a positive annual order, the listing's derived
stock status is computed from `percentOfAnnual = totalUnits / annualOrder *
100` and classifies as `good` exactly when that percentage exceeds 30, `low`
exactly when it exceeds 15 but not 30, and `critical` otherwise — stated
equivalently over the integers. -/
theorem stock_status_spec (p : Part) (h : 0 < p.annualOrder) :
    percentOfAnnual p = (totalUnitsOnHand p : ℚ) / (p.annualOrder : ℚ) * 100 ∧
    (stockStatus p = .good ↔ 30 * p.annualOrder < totalUnitsOnHand p * 100) ∧
    (stockStatus p = .low ↔
      15 * p.annualOrder < totalUnitsOnHand p * 100 ∧
        totalUnitsOnHand p * 100 ≤ 30 * p.annualOrder) ∧
    (stockStatus p = .critical ↔ totalUnitsOnHand p * 100 ≤ 15 * p.annualOrder) := by
  have k30 := percentOfAnnual_lt_iff p h 30
  have k15 := percentOfAnnual_lt_iff p h 15
  have c30 : ((30 : ℤ) : ℚ) = (30 : ℚ) := by norm_num
  have c15 : ((15 : ℤ) : ℚ) = (15 : ℚ) := by norm_num
  rw [c30] at k30
  rw [c15] at k15
  refine ⟨rfl, ?_, ?_, ?_⟩
  · unfold stockStatus
    by_cases h30 : (30 : ℚ) < percentOfAnnual p
    · rw [if_pos h30]
      simp only [true_iff]
      exact k30.mp h30
    · rw [if_neg h30]
      by_cases h15 : (15 : ℚ) < percentOfAnnual p
      · rw [if_pos h15]
        simp only [reduceCtorEq, false_iff, not_lt]
        exact not_lt.mp (fun hc => h30 (k30.mpr hc))
      · rw [if_neg h15]
        simp only [reduceCtorEq, false_iff, not_lt]
        exact not_lt.mp (fun hc => h30 (k30.mpr hc))
  · unfold stockStatus
    by_cases h30 : (30 : ℚ) < percentOfAnnual p
    · rw [if_pos h30]
      simp only [reduceCtorEq, false_iff, not_and, not_le]
      intro _
      exact k30.mp h30
    · rw [if_neg h30]
      by_cases h15 : (15 : ℚ) < percentOfAnnual p
      · rw [if_pos h15]
        simp only [true_iff]
        exact ⟨k15.mp h15, not_lt.mp (fun hc => h30 (k30.mpr hc))⟩
      · rw [if_neg h15]
        simp only [reduceCtorEq, false_iff, not_and, not_le]
        intro hc
        exact absurd (k15.mpr hc) h15
  · unfold stockStatus
    by_cases h30 : (30 : ℚ) < percentOfAnnual p
    · rw [if_pos h30]
      simp only [reduceCtorEq, false_iff, not_le]
      have h1530 : (15 : ℚ) < (30 : ℚ) := by norm_num
      exact k15.mp (lt_trans h1530 h30)
    · rw [if_neg h30]
      by_cases h15 : (15 : ℚ) < percentOfAnnual p
      · rw [if_pos h15]
        simp only [reduceCtorEq, false_iff, not_le]
        exact k15.mp h15
      · rw [if_neg h15]
        simp only [true_iff]
        exact not_lt.mp (fun hc => h15 (k15.mpr hc))

/-- Part realizing the spec example: 20000 units on hand against an annual
order of 100000 (20 pallets of 10 boxes, 100 units per box). -/
def partStock : Part :=
  { partNumber := "100309797", unitsPerBox := 100, boxesPerPallet := 10,
    currentPallets := 20, currentBoxes := 0, annualOrder := 100000 }

/-- Witness for C8: `annualOrder = 100000` and 20000 on-hand units give a
percentage of 20 and status `low`. -/
theorem stock_status_spec_witness :
    percentOfAnnual partStock = 20 ∧ stockStatus partStock = .low := by
  have h := stock_status_spec partStock (by decide)
  exact ⟨by norm_num [percentOfAnnual, totalUnitsOnHand, totalBoxesOnHand, partStock],
    (h.2.2.1).mpr (by decide)⟩

/-- C9 counterexample: with `CRON_SECRET` set to the empty string (and
likewise when unset), the cron guard rejects nothing — a request whose
authorization header matches no `Bearer <secret>` value still runs the
sweep, contradicting the claim that it runs only on a bearer match. -/
theorem cron_guard_skipped :
    cronRejected (some "") (some "wrong") = false ∧
    some "wrong" ≠ some ("Bearer " ++ "") ∧
    cronRejected none none = false := by
  decide

/-- C9 (amended): when `CRON_SECRET` is configured to a non-empty value,
the cron endpoints reject a request exactly when its authorization header
differs from `Bearer <secret>` (so they run only on a bearer match); when it
is unset or empty the check is skipped and every request is allowed. -/
theorem cron_guard_amended (secret : String) (auth : Option String) (hs : ¬ secret = "") :
    (cronRejected (some secret) auth = true ↔ ¬ auth = some ("Bearer " ++ secret)) ∧
    (cronRejected (some secret) auth = false ↔ auth = some ("Bearer " ++ secret)) ∧
    (∀ a : Option String, cronRejected none a = false) ∧
    (∀ a : Option String, cronRejected (some "") a = false) := by
  unfold cronRejected
  dsimp only
  rw [if_neg hs]
  refine ⟨by simp [bne_iff_ne], ?_, fun a => rfl, fun a => by rw [if_pos rfl]⟩
  constructor
  · intro hf
    by_contra hne
    rw [bne_eq_false_iff_eq] at hf
    exact hne hf
  · intro he
    rw [he, bne_self_eq_false]

/-- Witness for C9 (amended): with secret `topsecret`, the exact header
`Bearer topsecret` is allowed and `Bearer wrong` is rejected. -/
theorem cron_guard_amended_witness :
    cronRejected (some "topsecret") (some "Bearer topsecret") = false ∧
    cronRejected (some "topsecret") (some "Bearer wrong") = true := by
  have h1 := cron_guard_amended "topsecret" (some "Bearer topsecret") (by decide)
  have h2 := cron_guard_amended "topsecret" (some "Bearer wrong") (by decide)
  exact ⟨h1.2.1.mpr (by decide), h2.1.mpr (by decide)⟩

end AOSmith
